import Mathlib

/-!
Verification of the transport-go fabric endpoint and broker connector.

The fabric endpoint couples the in-process event bus to a STOMP server:
it classifies broker destinations into channel names, keeps a per-channel
subscription registry, encodes bus payloads onto the wire and routes
responses either as a broadcast on the topic destination or privately to a
single connection.  The endpoint implementation is modelled from the
specification (its behaviour is pinned down by `fabric_endpoint_test.go`);
the broker connector is embedded from `src/bridge/broker_connector.go`.
-/

namespace Transport

/-- Modelled from the spec: free-form JSON values, standing in for the
arbitrary payloads the bus carries (JSON encoding itself is out of scope
for the spec, so serialization is modelled at the level of JSON trees). -/
inductive Json where
  | null : Json
  | bool (b : Bool) : Json
  | num (n : Int) : Json
  | str (s : String) : Json
  | arr (items : List Json) : Json
  | obj (fields : List (String × Json)) : Json

/-- Modelled from the spec: a broker destination carried on a Response or
Request, routing a private reply to one connection at one destination. -/
structure BrokerDestinationConfig where
  Destination : String
  ConnectionId : String

/-- Modelled from the spec: the structured Response envelope (correlation
id, free-form payload, error indicator, optional broker destination). -/
structure Response where
  Id : Option String
  Payload : Json
  Error : Bool
  BrokerDestination : Option BrokerDestinationConfig

/-- Modelled from the spec: the structured Request envelope (correlation
id, request name, free-form payload, optional broker destination). -/
structure Request where
  Id : Option String
  Request : String
  Payload : Json
  BrokerDestination : Option BrokerDestinationConfig

/-- Field lookup in a JSON object, first match wins. -/
def Json.lookupField : List (String × Json) → String → Option Json
  | [], _ => none
  | p :: rest, key => if p.1 = key then some p.2 else Json.lookupField rest key

/-- Encoding of an optional string field (absent encodes as null). -/
def encodeOptStr : Option String → Json
  | none => Json.null
  | some s => Json.str s

/-- Encoding of an optional broker destination field. -/
def encodeBrokerDestination : Option BrokerDestinationConfig → Json
  | none => Json.null
  | some bd => Json.obj [("destination", Json.str bd.Destination),
                         ("connectionId", Json.str bd.ConnectionId)]

/-- Modelled from the spec: JSON wire form of a Response envelope
(fields id, payload, error, brokerDestination). -/
def encodeResponse (r : Response) : Json :=
  Json.obj [("id", encodeOptStr r.Id),
            ("payload", r.Payload),
            ("error", Json.bool r.Error),
            ("brokerDestination", encodeBrokerDestination r.BrokerDestination)]

/-- Modelled from the spec: JSON wire form of a Request envelope
(fields id, request, payload, brokerDestination). -/
def encodeRequest (r : Request) : Json :=
  Json.obj [("id", encodeOptStr r.Id),
            ("request", Json.str r.Request),
            ("payload", r.Payload),
            ("brokerDestination", encodeBrokerDestination r.BrokerDestination)]

/-- Decoding an optional string field; an absent or null field is `none`,
a non-string value is a decode failure. -/
def decodeOptStr : Option Json → Option (Option String)
  | none => some none
  | some Json.null => some none
  | some (Json.str s) => some (some s)
  | some _ => none

/-- Decoding a string field; an absent or null field is the zero value. -/
def decodeStr : Option Json → Option String
  | none => some ""
  | some Json.null => some ""
  | some (Json.str s) => some s
  | some _ => none

/-- Decoding a boolean field; an absent or null field is the zero value. -/
def decodeBool : Option Json → Option Bool
  | none => some false
  | some Json.null => some false
  | some (Json.bool b) => some b
  | some _ => none

/-- Decoding an optional broker destination field. -/
def decodeBrokerDestination : Option Json → Option (Option BrokerDestinationConfig)
  | none => some none
  | some Json.null => some none
  | some (Json.obj fields) =>
    match decodeStr (Json.lookupField fields "destination"),
          decodeStr (Json.lookupField fields "connectionId") with
    | some d, some c => some (some { Destination := d, ConnectionId := c })
    | _, _ => none
  | some _ => none

/-- The free-form payload field is taken as-is; absent decodes as null. -/
def decodePayloadField : Option Json → Json
  | none => Json.null
  | some j => j

/-- Modelled from the spec: decoding a Response envelope from its JSON
wire form. -/
def decodeResponse : Json → Option Response
  | Json.obj fields =>
    match decodeOptStr (Json.lookupField fields "id"),
          decodeBool (Json.lookupField fields "error"),
          decodeBrokerDestination (Json.lookupField fields "brokerDestination") with
    | some i, some e, some bd =>
      some { Id := i, Payload := decodePayloadField (Json.lookupField fields "payload"),
             Error := e, BrokerDestination := bd }
    | _, _, _ => none
  | _ => none

/-- Modelled from the spec: decoding a Request envelope from its JSON
wire form; a non-object body is a parse failure. -/
def decodeRequest : Json → Option Request
  | Json.obj fields =>
    match decodeOptStr (Json.lookupField fields "id"),
          decodeStr (Json.lookupField fields "request"),
          decodeBrokerDestination (Json.lookupField fields "brokerDestination") with
    | some i, some rq, some bd =>
      some { Id := i, Request := rq, Payload := decodePayloadField (Json.lookupField fields "payload"),
             BrokerDestination := bd }
    | _, _, _ => none
  | _ => none

/-- Modelled from the spec: the endpoint configuration with its recognized
prefix options and the heartbeat interval. -/
structure EndpointConfig where
  TopicPrefix : String := ""
  AppRequestPrefix : String := ""
  AppRequestQueuePrefix : String := ""
  UserQueuePrefix : String := ""
  Heartbeat : Nat := 0

/-- Modelled from the spec: a non-empty prefix is stored with a trailing
path separator; one that already ends in the separator is left unchanged
(test-verified on "/topic" and "/topic/"); an empty prefix stays empty. -/
def normalizePfx (p : String) : String :=
  if p = "" then "" else if p.data.reverse.take 1 = ['/'] then p else p ++ "/"

/-- Modelled from the spec: the constructor normalizes every prefix option
of the configuration. -/
def normalizeConfig (cfg : EndpointConfig) : EndpointConfig :=
  { cfg with
    TopicPrefix := normalizePfx cfg.TopicPrefix,
    AppRequestPrefix := normalizePfx cfg.AppRequestPrefix,
    AppRequestQueuePrefix := normalizePfx cfg.AppRequestQueuePrefix,
    UserQueuePrefix := normalizePfx cfg.UserQueuePrefix }

/-- Modelled from the spec: the routing intent of a broker destination. -/
inductive DestKind where
  | topic
  | userQueue
  | appRequest
  | appRequestQueue
  | unknown
deriving DecidableEq

/-- A configured (non-empty) prefix matching the head of a destination. -/
def matchesPfx (pfx destination : String) : Bool :=
  !(pfx == "") && pfx.data.isPrefixOf destination.data

/-- The channel name: the suffix of the destination after the prefix. -/
def chanSuffix (pfx destination : String) : String :=
  String.mk (destination.data.drop pfx.data.length)

/-- A matched rule commits to its kind; an empty suffix is Unknown. -/
def tagDest (k : DestKind) (channelName : String) : DestKind × String :=
  if channelName = "" then (DestKind.unknown, "") else (k, channelName)

/-- Modelled from the spec: `classify(destination)` translates a broker
destination into a routing kind and a channel name.  Rules are evaluated
in order, the more specific AppRequestQueue before AppRequest. -/
def classify (cfg : EndpointConfig) (destination : String) : DestKind × String :=
  if matchesPfx cfg.AppRequestQueuePrefix destination then
    tagDest DestKind.appRequestQueue (chanSuffix cfg.AppRequestQueuePrefix destination)
  else if matchesPfx cfg.AppRequestPrefix destination then
    tagDest DestKind.appRequest (chanSuffix cfg.AppRequestPrefix destination)
  else if matchesPfx cfg.UserQueuePrefix destination then
    tagDest DestKind.userQueue (chanSuffix cfg.UserQueuePrefix destination)
  else if matchesPfx cfg.TopicPrefix destination then
    tagDest DestKind.topic (chanSuffix cfg.TopicPrefix destination)
  else (DestKind.unknown, "")

/-- Modelled from the spec: the endpoint state, its normalized
configuration and the registry of channel mappings (channel name to the
set of composite subscriber ids). -/
structure FabricEndpoint where
  config : EndpointConfig
  chanMappings : List (String × List String)

/-- Registry lookup by channel name. -/
def lookupMapping : List (String × List String) → String → Option (List String)
  | [], _ => none
  | p :: rest, c => if p.1 = c then some p.2 else lookupMapping rest c

/-- Replace the subscriber set of an existing mapping. -/
def updateMapping : List (String × List String) → String → List String → List (String × List String)
  | [], _, _ => []
  | p :: rest, c, subs => if p.1 = c then (c, subs) :: rest else p :: updateMapping rest c subs

/-- Delete a mapping entry. -/
def removeMapping : List (String × List String) → String → List (String × List String)
  | [], _ => []
  | p :: rest, c => if p.1 = c then rest else p :: removeMapping rest c

/-- Set insertion of a composite id into a subscriber set. -/
def insertSub (cid : String) (subs : List String) : List String :=
  if cid ∈ subs then subs else subs ++ [cid]

/-- The subscriber set of a channel (empty when unmapped). -/
def subsOf (fe : FabricEndpoint) (c : String) : List String :=
  (lookupMapping fe.chanMappings c).getD []

/-- Modelled from the spec: `newFabricEndpoint` stores the normalized
configuration and starts with an empty registry. -/
def newFabricEndpoint (cfg : EndpointConfig) : FabricEndpoint :=
  { config := normalizeConfig cfg, chanMappings := [] }

/-- Modelled from the spec: the subscribe callback.  Destinations whose
kind is not Topic or UserQueue are ignored, as are channels that do not
exist on the bus; the first valid subscribe creates the mapping, later
ones extend its subscriber set. -/
def onSubscribe (chs : List String) (fe : FabricEndpoint) (conId subId destination : String) : FabricEndpoint :=
  if (classify fe.config destination).1 = DestKind.topic ∨
     (classify fe.config destination).1 = DestKind.userQueue then
    if (classify fe.config destination).2 ∈ chs then
      match lookupMapping fe.chanMappings (classify fe.config destination).2 with
      | some subs =>
        { fe with chanMappings :=
            (updateMapping fe.chanMappings (classify fe.config destination).2
              (insertSub (conId ++ "#" ++ subId) subs)) }
      | none =>
        { fe with chanMappings :=
            ((classify fe.config destination).2, [conId ++ "#" ++ subId]) :: fe.chanMappings }
    else fe
  else fe

/-- Modelled from the spec: the unsubscribe callback.  An unclassifiable
destination or an absent composite id is ignored; removing the last
subscriber deletes the mapping entry. -/
def onUnsubscribe (fe : FabricEndpoint) (conId subId destination : String) : FabricEndpoint :=
  if (classify fe.config destination).1 = DestKind.unknown then fe
  else
    match lookupMapping fe.chanMappings (classify fe.config destination).2 with
    | none => fe
    | some subs =>
      if (conId ++ "#" ++ subId) ∈ subs then
        if subs.erase (conId ++ "#" ++ subId) = [] then
          { fe with chanMappings :=
              removeMapping fe.chanMappings (classify fe.config destination).2 }
        else
          { fe with chanMappings :=
              (updateMapping fe.chanMappings (classify fe.config destination).2
                (subs.erase (conId ++ "#" ++ subId))) }
      else fe

/-- Modelled from the spec: the wire bytes handed to the STOMP layer: raw
UTF-8 bytes of a string, a pass-through byte sequence, or the JSON
serialization of a value. -/
inductive WireBytes where
  | utf8 (s : String)
  | raw (bytes : List Nat)
  | json (j : Json)

/-- Modelled from the spec: a bus payload as the response encoder sees it,
a tagged discrimination over string, byte blob, structured Response (value
or pointer form) and any other serializable value. -/
inductive BusPayload where
  | str (s : String)
  | bytes (b : List Nat)
  | response (r : Response)
  | responsePtr (r : Response)
  | value (j : Json)

/-- Modelled from the spec: a message the bus yields to a listener:
either a response payload or an error with its text. -/
inductive BusMessage where
  | response (p : BusPayload)
  | error (errorText : String)

/-- Modelled from the spec: a call made on the STOMP server contract:
`SendMessage` broadcasts, `SendMessageToClient` unicasts. -/
inductive StompOut where
  | sendMessage (destination : String) (body : WireBytes)
  | sendMessageToClient (conId : String) (destination : String) (body : WireBytes)

/-- Modelled from the spec: the response encoder, producing the wire bytes
and the optional private route.  A string becomes its raw UTF-8 bytes, a
byte sequence passes through, a Response (value or pointer form) is
JSON-serialized whole with its BrokerDestination as the route, any other
value is JSON-serialized. -/
def encodePayload : BusPayload → WireBytes × Option BrokerDestinationConfig
  | BusPayload.str s => (WireBytes.utf8 s, none)
  | BusPayload.bytes b => (WireBytes.raw b, none)
  | BusPayload.response r => (WireBytes.json (encodeResponse r), r.BrokerDestination)
  | BusPayload.responsePtr r => (WireBytes.json (encodeResponse r), r.BrokerDestination)
  | BusPayload.value j => (WireBytes.json j, none)

/-- Modelled from the spec: response and error dispatch for one bus
message on a channel.  A listener is attached exactly while the mapping
exists, so an unmapped channel produces no send; an error is sent as its
plain text on the topic destination; a private route sends once to that
connection; otherwise a single broadcast goes to TopicPrefix plus the
channel name. -/
def dispatchResponse (fe : FabricEndpoint) (channelName : String) (m : BusMessage) : List StompOut :=
  match lookupMapping fe.chanMappings channelName with
  | none => []
  | some _ =>
    match m with
    | BusMessage.error e =>
      [StompOut.sendMessage (fe.config.TopicPrefix ++ channelName) (WireBytes.utf8 e)]
    | BusMessage.response p =>
      match encodePayload p with
      | (body, some bd) => [StompOut.sendMessageToClient bd.ConnectionId bd.Destination body]
      | (body, none) =>
        [StompOut.sendMessage (fe.config.TopicPrefix ++ channelName) body]

/-- Parsing an application-request body as a Request envelope; a body that
is not JSON fails to parse. -/
def parseRequest : WireBytes → Option Request
  | WireBytes.json j => decodeRequest j
  | _ => none

/-- Modelled from the spec: the application-request callback.  Only
AppRequest and AppRequestQueue destinations are accepted; a missing
channel or a body that fails to parse is dropped silently.  For the queue
kind the request gains a BrokerDestination naming the user-queue reply
destination and the connection; the result is the list of (channel,
request) pairs published onto the bus. -/
def onAppRequest (fe : FabricEndpoint) (chs : List String) (destination : String) (body : WireBytes) (conId : String) : List (String × Request) :=
  if (classify fe.config destination).1 = DestKind.appRequest ∨
     (classify fe.config destination).1 = DestKind.appRequestQueue then
    if (classify fe.config destination).2 ∈ chs then
      match parseRequest body with
      | none => []
      | some req =>
        if (classify fe.config destination).1 = DestKind.appRequestQueue then
          [((classify fe.config destination).2,
            { req with BrokerDestination :=
                (some { Destination := (fe.config.UserQueuePrefix ++ (classify fe.config destination).2),
                        ConnectionId := conId }) })]
        else
          [((classify fe.config destination).2, req)]
    else []
  else []

/-- A subscribe or unsubscribe callback delivered by the STOMP server. -/
inductive EndpointEvent where
  | subscribe (conId subId destination : String)
  | unsubscribe (conId subId destination : String)

/-- One callback applied to the endpoint state (`chs` lists the channels
existing on the bus; the endpoint never creates channels). -/
def applyEvent (chs : List String) (fe : FabricEndpoint) : EndpointEvent → FabricEndpoint
  | EndpointEvent.subscribe conId subId destination => onSubscribe chs fe conId subId destination
  | EndpointEvent.unsubscribe conId subId destination => onUnsubscribe fe conId subId destination

/-- The endpoint state after a sequence of callbacks from a fresh start. -/
def applyEvents (cfg : EndpointConfig) (chs : List String) (evs : List EndpointEvent) : FabricEndpoint :=
  evs.foldl (applyEvent chs) (newFabricEndpoint cfg)

/-- Well-formedness of the registry: channel keys are distinct and every
mapping carries a non-empty, duplicate-free subscriber set. -/
def WFm (ms : List (String × List String)) : Prop :=
  (ms.map Prod.fst).Nodup ∧ ∀ p ∈ ms, p.2 ≠ [] ∧ p.2.Nodup

/-- The property claimed of stored prefixes: exactly one trailing path
separator. -/
def exactlyOneTrailingSlash (s : String) : Prop :=
  s.data.reverse.take 1 = ['/'] ∧ s.data.reverse.take 2 ≠ ['/', '/']

/-- Configuration of the broker connector, from
`src/bridge/broker_connector.go`. -/
structure BrokerConnectorConfig where
  Username : String := ""
  Password : String := ""
  ServerAddr : String := ""
  UseWS : Bool := false
  HostHeader : String := ""
  WSPath : String := ""

/-- An established broker connection (`connection` in the source),
abstracted to its id and transport flag. -/
structure Connection where
  id : Nat
  useWs : Bool

/-- The mutable fields of `brokerConnector`. -/
structure BrokerConnectorState where
  c : Option Connection
  config : Option BrokerConnectorConfig
  connected : Bool

/-- `checkConfig` from `src/bridge/broker_connector.go`: a nil config or
one missing the server address, username or password is rejected with an
error message. -/
def checkConfig : Option BrokerConnectorConfig → Option String
  | none => some "config is nil"
  | some cfg =>
    if cfg.ServerAddr = "" then some "config invalid, config missing server address"
    else if cfg.Username = "" then some "config invalid, config missing username"
    else if cfg.Password = "" then some "config invalid, config missing password"
    else none

/-- The outcome of a Connect call: the returned connection and error, the
connector state afterwards, and whether a dial was attempted. -/
structure ConnectOutcome where
  conn : Option Connection
  err : Option String
  state : BrokerConnectorState
  dialAttempted : Bool

/-- `connectTCP` from the source: defaults the host header, dials (the
dial itself is external I/O, supplied as an oracle), and on success stores
the connection, the config and the connected flag. -/
def connectTCP (bc : BrokerConnectorState) (cfg : BrokerConnectorConfig)
    (dialTCP : BrokerConnectorConfig → Option Nat) : ConnectOutcome :=
  let cfg2 := if cfg.HostHeader = "" then { cfg with HostHeader := "/" } else cfg
  match dialTCP cfg2 with
  | none => { conn := none, err := some "dial error", state := bc, dialAttempted := true }
  | some n =>
    let conn : Connection := { id := n, useWs := false }
    { conn := some conn, err := none,
      state := { c := some conn, config := some cfg2, connected := true },
      dialAttempted := true }

/-- `connectWs` from the source: dials the websocket client; on success it
stores the connection and the connected flag (the config field of the
connector is not updated on this path, as in the source). -/
def connectWs (bc : BrokerConnectorState) (cfg : BrokerConnectorConfig)
    (dialWS : BrokerConnectorConfig → Option Nat) : ConnectOutcome :=
  match dialWS cfg with
  | none =>
    { conn := none,
      err := some ("cannot connect to host '" ++ cfg.ServerAddr ++ "' via path '" ++ cfg.WSPath ++ "', stopping"),
      state := bc, dialAttempted := true }
  | some n =>
    let conn : Connection := { id := n, useWs := true }
    { conn := some conn, err := none,
      state := { c := some conn, config := bc.config, connected := true },
      dialAttempted := true }

/-- `Connect` from `src/bridge/broker_connector.go`: validates the config
first and returns the error without touching any state or dialing; then
dials over websocket or TCP depending on the config. -/
def Connect (bc : BrokerConnectorState) (config : Option BrokerConnectorConfig)
    (dialTCP dialWS : BrokerConnectorConfig → Option Nat) : ConnectOutcome :=
  match checkConfig config with
  | some e => { conn := none, err := some e, state := bc, dialAttempted := false }
  | none =>
    match config with
    | some cfg => if cfg.UseWS then connectWs bc cfg dialWS else connectTCP bc cfg dialTCP
    | none => { conn := none, err := none, state := bc, dialAttempted := false }

/-- Decoding wire bytes back to a JSON value: only JSON-serialized bytes
decode. -/
def decodeJsonWire : WireBytes → Option Json
  | WireBytes.json j => some j
  | _ => none

/-- Decoding wire bytes as a Response envelope. -/
def decodeResponseWire (w : WireBytes) : Option Response :=
  (decodeJsonWire w).bind decodeResponse

/-! ## Registry lemmas -/

theorem lookupMapping_eq_none_iff (ms : List (String × List String)) (c : String) :
    lookupMapping ms c = none ↔ c ∉ ms.map Prod.fst := by
  induction ms with
  | nil => simp [lookupMapping]
  | cons p rest ih =>
    by_cases h : p.1 = c
    · simp [lookupMapping, h]
    · rw [lookupMapping, if_neg h, ih, List.map_cons, List.mem_cons, not_or]
      exact ⟨fun hr => ⟨fun hc => h hc.symm, hr⟩, fun hr => hr.2⟩

theorem lookupMapping_mem (ms : List (String × List String)) (c : String) (subs : List String)
    (h : lookupMapping ms c = some subs) : (c, subs) ∈ ms := by
  induction ms with
  | nil => simp [lookupMapping] at h
  | cons p rest ih =>
    obtain ⟨a, b⟩ := p
    by_cases hp : a = c
    · subst hp
      simp [lookupMapping] at h
      subst h
      exact List.mem_cons_self _ _
    · simp [lookupMapping, hp] at h
      exact List.mem_cons_of_mem _ (ih h)

theorem updateMapping_map_fst (ms : List (String × List String)) (c : String) (subs : List String) :
    (updateMapping ms c subs).map Prod.fst = ms.map Prod.fst := by
  induction ms with
  | nil => simp [updateMapping]
  | cons p rest ih =>
    by_cases hp : p.1 = c
    · simp [updateMapping, hp]
    · simp [updateMapping, hp, ih]

theorem mem_updateMapping (ms : List (String × List String)) (c : String) (subs : List String)
    (q : String × List String) (hq : q ∈ updateMapping ms c subs) : q ∈ ms ∨ q = (c, subs) := by
  induction ms with
  | nil => simp [updateMapping] at hq
  | cons p rest ih =>
    by_cases hp : p.1 = c
    · simp [updateMapping, hp] at hq
      rcases hq with hq | hq
      · right; exact hq
      · left; exact List.mem_cons_of_mem _ hq
    · simp [updateMapping, hp] at hq
      rcases hq with hq | hq
      · left; simp [hq]
      · rcases ih hq with h | h
        · left; exact List.mem_cons_of_mem _ h
        · right; exact h

theorem lookupMapping_updateMapping_self (ms : List (String × List String)) (c : String)
    (subs0 subs : List String) (h : lookupMapping ms c = some subs0) :
    lookupMapping (updateMapping ms c subs) c = some subs := by
  induction ms with
  | nil => simp [lookupMapping] at h
  | cons p rest ih =>
    by_cases hp : p.1 = c
    · simp [updateMapping, hp, lookupMapping]
    · simp [lookupMapping, hp] at h
      simp [updateMapping, hp, lookupMapping, ih h]

theorem removeMapping_sublist (ms : List (String × List String)) (c : String) :
    (removeMapping ms c).Sublist ms := by
  induction ms with
  | nil => simp [removeMapping]
  | cons p rest ih =>
    by_cases hp : p.1 = c
    · rw [removeMapping, if_pos hp]
      exact List.sublist_cons_self p rest
    · rw [removeMapping, if_neg hp]
      exact List.Sublist.cons₂ p ih

theorem lookupMapping_removeMapping_self (ms : List (String × List String)) (c : String)
    (hk : (ms.map Prod.fst).Nodup) : lookupMapping (removeMapping ms c) c = none := by
  induction ms with
  | nil => simp [removeMapping, lookupMapping]
  | cons p rest ih =>
    obtain ⟨a, b⟩ := p
    rw [List.map_cons, List.nodup_cons] at hk
    by_cases hp : a = c
    · subst hp
      simp only [removeMapping, if_pos rfl]
      rw [lookupMapping_eq_none_iff]
      exact hk.1
    · simp [removeMapping, hp, lookupMapping, ih hk.2]

theorem insertSub_ne_nil (cid : String) (subs : List String) (hs : subs ≠ []) :
    insertSub cid subs ≠ [] := by
  by_cases h : cid ∈ subs <;> simp [insertSub, h, hs]

theorem insertSub_nodup (cid : String) (subs : List String) (hs : subs.Nodup) :
    (insertSub cid subs).Nodup := by
  by_cases h : cid ∈ subs
  · simpa [insertSub, h] using hs
  · rw [insertSub, if_neg h]
    refine List.Nodup.append hs (List.nodup_singleton cid) ?_
    intro x hx hx2
    rw [List.mem_singleton] at hx2
    subst hx2
    exact h hx

theorem mem_insertSub_of_mem (cid x : String) (subs : List String) (hx : x ∈ subs) :
    x ∈ insertSub cid subs := by
  by_cases h : cid ∈ subs <;> simp [insertSub, h, hx]

/-! ## Well-formedness preservation -/

theorem WFm_onSubscribe (chs : List String) (fe : FabricEndpoint) (conId subId destination : String)
    (hwf : WFm fe.chanMappings) : WFm (onSubscribe chs fe conId subId destination).chanMappings := by
  unfold onSubscribe
  split
  · split
    · rcases hlk : lookupMapping fe.chanMappings (classify fe.config destination).2 with _ | subs
      · simp only [hlk]
        refine ⟨?_, ?_⟩
        · simp only [List.map_cons]
          refine List.Nodup.cons ?_ hwf.1
          exact (lookupMapping_eq_none_iff _ _).mp hlk
        · intro p hp
          rcases List.mem_cons.mp hp with hp | hp
          · subst hp; simp
          · exact hwf.2 p hp
      · simp only [hlk]
        refine ⟨?_, ?_⟩
        · simpa [updateMapping_map_fst] using hwf.1
        · intro p hp
          rcases mem_updateMapping _ _ _ _ hp with h | h
          · exact hwf.2 p h
          · subst h
            have hmem := lookupMapping_mem _ _ _ hlk
            have hsubs := hwf.2 _ hmem
            exact ⟨insertSub_ne_nil _ _ hsubs.1, insertSub_nodup _ _ hsubs.2⟩
    · exact hwf
  · exact hwf

theorem WFm_onUnsubscribe (fe : FabricEndpoint) (conId subId destination : String)
    (hwf : WFm fe.chanMappings) : WFm (onUnsubscribe fe conId subId destination).chanMappings := by
  unfold onUnsubscribe
  split
  · exact hwf
  · rcases hlk : lookupMapping fe.chanMappings (classify fe.config destination).2 with _ | subs
    · simp only [hlk]; exact hwf
    · simp only [hlk]
      split
      · split
        · refine ⟨?_, ?_⟩
          · exact hwf.1.sublist ((removeMapping_sublist _ _).map Prod.fst)
          · intro p hp
            exact hwf.2 p ((removeMapping_sublist _ _).subset hp)
        · refine ⟨?_, ?_⟩
          · simpa [updateMapping_map_fst] using hwf.1
          · intro p hp
            rcases mem_updateMapping _ _ _ _ hp with h | h
            · exact hwf.2 p h
            · subst h
              have hmem := lookupMapping_mem _ _ _ hlk
              have hsubs := hwf.2 _ hmem
              refine ⟨by assumption, hsubs.2.erase _⟩
      · exact hwf

theorem WFm_applyEvent (chs : List String) (fe : FabricEndpoint) (ev : EndpointEvent)
    (hwf : WFm fe.chanMappings) : WFm (applyEvent chs fe ev).chanMappings := by
  cases ev with
  | subscribe conId subId destination => exact WFm_onSubscribe chs fe conId subId destination hwf
  | unsubscribe conId subId destination => exact WFm_onUnsubscribe fe conId subId destination hwf

theorem WFm_foldl (chs : List String) (evs : List EndpointEvent) (fe : FabricEndpoint)
    (hwf : WFm fe.chanMappings) : WFm (evs.foldl (applyEvent chs) fe).chanMappings := by
  induction evs generalizing fe with
  | nil => exact hwf
  | cons ev rest ih => exact ih _ (WFm_applyEvent chs fe ev hwf)

theorem WFm_applyEvents (cfg : EndpointConfig) (chs : List String) (evs : List EndpointEvent) :
    WFm (applyEvents cfg chs evs).chanMappings := by
  refine WFm_foldl chs evs _ ?_
  constructor
  · simp [newFabricEndpoint]
  · intro p hp
    simp [newFabricEndpoint] at hp

theorem erase_eq_nil_of_mem (subs : List String) (cid : String) (hm : cid ∈ subs)
    (he : subs.erase cid = []) : subs = [cid] := by
  have hl := List.length_erase_of_mem hm
  rw [he] at hl
  simp only [List.length_nil] at hl
  have h1 : subs.length = 1 := by
    have hpos : 0 < subs.length := List.length_pos.mpr (List.ne_nil_of_mem hm)
    omega
  obtain ⟨a, ha⟩ := List.length_eq_one.mp h1
  subst ha
  rw [List.mem_singleton] at hm
  rw [hm]

theorem not_mem_erase_of_nodup (subs : List String) (cid : String) (hn : subs.Nodup) :
    cid ∉ subs.erase cid := hn.not_mem_erase

theorem config_onSubscribe (chs : List String) (fe : FabricEndpoint) (conId subId destination : String) :
    (onSubscribe chs fe conId subId destination).config = fe.config := by
  unfold onSubscribe
  split
  · split
    · rcases lookupMapping fe.chanMappings (classify fe.config destination).2 with _ | subs <;> rfl
    · rfl
  · rfl

theorem config_onUnsubscribe (fe : FabricEndpoint) (conId subId destination : String) :
    (onUnsubscribe fe conId subId destination).config = fe.config := by
  unfold onUnsubscribe
  split
  · rfl
  · rcases lookupMapping fe.chanMappings (classify fe.config destination).2 with _ | subs
    · rfl
    · simp only []
      split
      · split <;> rfl
      · rfl

/-! ## Round-trip of the Response and Request envelopes -/

theorem decodeResponse_encodeResponse (r : Response) :
    decodeResponse (encodeResponse r) = some r := by
  obtain ⟨i, payload, e, bd⟩ := r
  rcases i with _ | s <;> rcases bd with _ | ⟨d, cn⟩ <;> rfl

theorem decodeRequest_encodeRequest (r : Request) :
    decodeRequest (encodeRequest r) = some r := by
  obtain ⟨i, rq, payload, bd⟩ := r
  rcases i with _ | s <;> rcases bd with _ | ⟨d, cn⟩ <;> rfl

theorem lookupMapping_updateMapping_ne (ms : List (String × List String)) (c' c : String)
    (subs : List String) (h : c' ≠ c) :
    lookupMapping (updateMapping ms c' subs) c = lookupMapping ms c := by
  induction ms with
  | nil => rfl
  | cons p rest ih =>
    by_cases hp : p.1 = c'
    · rw [updateMapping, if_pos hp, lookupMapping, if_neg h, lookupMapping, if_neg]
      rw [hp]
      exact h
    · by_cases hpc : p.1 = c
      · rw [updateMapping, if_neg hp, lookupMapping, if_pos hpc, lookupMapping, if_pos hpc]
      · rw [updateMapping, if_neg hp, lookupMapping, if_neg hpc, lookupMapping, if_neg hpc, ih]

theorem dispatchResponse_of_unmapped (fe : FabricEndpoint) (c : String) (m : BusMessage)
    (h : lookupMapping fe.chanMappings c = none) : dispatchResponse fe c m = [] := by
  unfold dispatchResponse
  rw [h]

theorem onUnsubscribe_noop_unknown (fe : FabricEndpoint) (conId subId destination : String)
    (hk : (classify fe.config destination).1 = DestKind.unknown) :
    onUnsubscribe fe conId subId destination = fe := by
  unfold onUnsubscribe
  rw [if_pos hk]

theorem onUnsubscribe_noop_none (fe : FabricEndpoint) (conId subId destination : String)
    (hlk : lookupMapping fe.chanMappings (classify fe.config destination).2 = none) :
    onUnsubscribe fe conId subId destination = fe := by
  unfold onUnsubscribe
  split
  · rfl
  · simp only [hlk]

theorem onUnsubscribe_noop_not_mem (fe : FabricEndpoint) (conId subId destination : String)
    (subs : List String)
    (hlk : lookupMapping fe.chanMappings (classify fe.config destination).2 = some subs)
    (hm : (conId ++ "#" ++ subId) ∉ subs) :
    onUnsubscribe fe conId subId destination = fe := by
  unfold onUnsubscribe
  split
  · rfl
  · simp only [hlk]
    rw [if_neg hm]

theorem onUnsubscribe_removes_last (fe : FabricEndpoint) (conId subId destination : String)
    (hk : ¬(classify fe.config destination).1 = DestKind.unknown)
    (hlk : lookupMapping fe.chanMappings (classify fe.config destination).2
      = some [conId ++ "#" ++ subId]) :
    onUnsubscribe fe conId subId destination
      = { fe with chanMappings := removeMapping fe.chanMappings (classify fe.config destination).2 } := by
  unfold onUnsubscribe
  rw [if_neg hk]
  simp only [hlk]
  rw [if_pos (List.mem_singleton_self _), if_pos (List.erase_cons_head _ _)]

theorem onUnsubscribe_keeps_rest (fe : FabricEndpoint) (conId subId destination : String)
    (subs : List String)
    (hk : ¬(classify fe.config destination).1 = DestKind.unknown)
    (hlk : lookupMapping fe.chanMappings (classify fe.config destination).2 = some subs)
    (hm : (conId ++ "#" ++ subId) ∈ subs)
    (he : ¬subs.erase (conId ++ "#" ++ subId) = []) :
    onUnsubscribe fe conId subId destination
      = { fe with chanMappings :=
            (updateMapping fe.chanMappings (classify fe.config destination).2
              (subs.erase (conId ++ "#" ++ subId))) } := by
  unfold onUnsubscribe
  rw [if_neg hk]
  simp only [hlk]
  rw [if_pos hm, if_neg he]

theorem onUnsubscribe_idem (fe : FabricEndpoint) (conId subId destination : String)
    (hwf : WFm fe.chanMappings) :
    onUnsubscribe (onUnsubscribe fe conId subId destination) conId subId destination
      = onUnsubscribe fe conId subId destination := by
  by_cases hk : (classify fe.config destination).1 = DestKind.unknown
  · rw [onUnsubscribe_noop_unknown fe conId subId destination hk,
        onUnsubscribe_noop_unknown fe conId subId destination hk]
  · rcases hlk : lookupMapping fe.chanMappings (classify fe.config destination).2 with _ | subs
    · rw [onUnsubscribe_noop_none fe conId subId destination hlk,
          onUnsubscribe_noop_none fe conId subId destination hlk]
    · by_cases hm : (conId ++ "#" ++ subId) ∈ subs
      · by_cases he : subs.erase (conId ++ "#" ++ subId) = []
        · have hsingle : subs = [conId ++ "#" ++ subId] := erase_eq_nil_of_mem subs _ hm he
          subst hsingle
          rw [onUnsubscribe_removes_last fe conId subId destination hk hlk]
          apply onUnsubscribe_noop_none
          exact lookupMapping_removeMapping_self fe.chanMappings _ hwf.1
        · rw [onUnsubscribe_keeps_rest fe conId subId destination subs hk hlk hm he]
          apply onUnsubscribe_noop_not_mem _ _ _ _ (subs.erase (conId ++ "#" ++ subId))
          · exact lookupMapping_updateMapping_self fe.chanMappings _ subs _ hlk
          · have hmem := lookupMapping_mem _ _ _ hlk
            exact (hwf.2 _ hmem).2.not_mem_erase
      · rw [onUnsubscribe_noop_not_mem fe conId subId destination subs hlk hm,
            onUnsubscribe_noop_not_mem fe conId subId destination subs hlk hm]

theorem onSubscribe_creates (chs : List String) (fe : FabricEndpoint)
    (conId subId destination c : String)
    (hk : (classify fe.config destination).1 = DestKind.topic ∨
          (classify fe.config destination).1 = DestKind.userQueue)
    (hc : (classify fe.config destination).2 = c) (hin : c ∈ chs)
    (hlk : lookupMapping fe.chanMappings c = none) :
    lookupMapping (onSubscribe chs fe conId subId destination).chanMappings c
      = some [conId ++ "#" ++ subId] := by
  unfold onSubscribe
  rw [if_pos hk, if_pos (by rw [hc]; exact hin), hc]
  simp only [hlk]
  simp [lookupMapping, hc]

theorem onSubscribe_extends (chs : List String) (fe : FabricEndpoint)
    (conId subId destination c : String) (subs : List String)
    (hlk : lookupMapping fe.chanMappings c = some subs) :
    ∀ x ∈ subs, x ∈ subsOf (onSubscribe chs fe conId subId destination) c := by
  intro x hx
  unfold onSubscribe
  split
  · split
    · by_cases hc : (classify fe.config destination).2 = c
      · rw [hc]
        simp only [hlk]
        unfold subsOf
        simp only []
        rw [lookupMapping_updateMapping_self fe.chanMappings c subs _ hlk]
        exact mem_insertSub_of_mem _ _ _ hx
      · rcases hlk2 : lookupMapping fe.chanMappings (classify fe.config destination).2 with _ | subs2
        · simp only [hlk2]
          unfold subsOf
          simp only [lookupMapping]
          rw [if_neg hc, hlk]
          exact hx
        · simp only [hlk2]
          unfold subsOf
          simp only []
          rw [lookupMapping_updateMapping_ne fe.chanMappings _ c _ hc, hlk]
          exact hx
    · unfold subsOf
      rw [hlk]
      exact hx
  · unfold subsOf
    rw [hlk]
    exact hx

theorem mapping_present_iff_subs_ne_nil (fe : FabricEndpoint) (c : String)
    (hwf : WFm fe.chanMappings) :
    ((lookupMapping fe.chanMappings c).isSome = true ↔ subsOf fe c ≠ []) := by
  rcases hlk : lookupMapping fe.chanMappings c with _ | subs
  · unfold subsOf
    rw [hlk]
    simp
  · unfold subsOf
    rw [hlk]
    simp only [Option.isSome_some, Option.getD_some, true_iff]
    exact (hwf.2 _ (lookupMapping_mem _ _ _ hlk)).1

theorem onUnsubscribe_removed_iff (fe : FabricEndpoint) (conId subId destination c : String)
    (hwf : WFm fe.chanMappings)
    (hk : ¬(classify fe.config destination).1 = DestKind.unknown)
    (hc : (classify fe.config destination).2 = c) :
    (lookupMapping (onUnsubscribe fe conId subId destination).chanMappings c = none ↔
      (lookupMapping fe.chanMappings c = none ∨
       lookupMapping fe.chanMappings c = some [conId ++ "#" ++ subId])) := by
  rcases hlk : lookupMapping fe.chanMappings c with _ | subs
  · rw [onUnsubscribe_noop_none fe conId subId destination (by rw [hc]; exact hlk), hlk]
    simp
  · by_cases hm : (conId ++ "#" ++ subId) ∈ subs
    · by_cases he : subs.erase (conId ++ "#" ++ subId) = []
      · have hsingle : subs = [conId ++ "#" ++ subId] := erase_eq_nil_of_mem subs _ hm he
        subst hsingle
        rw [onUnsubscribe_removes_last fe conId subId destination hk (by rw [hc]; exact hlk)]
        simp only [hc]
        rw [lookupMapping_removeMapping_self fe.chanMappings c hwf.1]
        simp
      · rw [onUnsubscribe_keeps_rest fe conId subId destination subs hk (by rw [hc]; exact hlk) hm he]
        simp only [hc]
        rw [lookupMapping_updateMapping_self fe.chanMappings c subs _ hlk]
        constructor
        · intro h
          exact absurd h (by simp)
        · rintro (h | h)
          · exact absurd h (by simp)
          · exfalso
            apply he
            rw [Option.some_inj.mp h]
            exact List.erase_cons_head _ _
    · rw [onUnsubscribe_noop_not_mem fe conId subId destination subs (by rw [hc]; exact hlk) hm, hlk]
      constructor
      · intro h
        exact absurd h (by simp)
      · rintro (h | h)
        · exact absurd h (by simp)
        · exfalso
          apply hm
          rw [Option.some_inj.mp h]
          exact List.mem_singleton_self _

/-! ## Claims -/

/-- C1: For every sequence of subscribe and unsubscribe callbacks, a
channel mapping is present in the endpoint's registry if and only if its
subscriber set is non-empty: the mapping is created on the first valid
subscribe for a previously unmapped channel, later subscribes only extend
its subscriber set, and the mapping entry is removed exactly when its
last subscriber unsubscribes, after which a bus response on that channel
produces no STOMP send. -/
theorem fabric_registry_lifecycle (cfg : EndpointConfig) (chs : List String)
    (evs : List EndpointEvent) (c conId subId destination : String) (m : BusMessage) :
    ((lookupMapping (applyEvents cfg chs evs).chanMappings c).isSome = true ↔
      subsOf (applyEvents cfg chs evs) c ≠ [])
    ∧ (((classify (applyEvents cfg chs evs).config destination).1 = DestKind.topic ∨
        (classify (applyEvents cfg chs evs).config destination).1 = DestKind.userQueue) →
       (classify (applyEvents cfg chs evs).config destination).2 = c → c ∈ chs →
       lookupMapping (applyEvents cfg chs evs).chanMappings c = none →
       lookupMapping (onSubscribe chs (applyEvents cfg chs evs) conId subId destination).chanMappings c
         = some [conId ++ "#" ++ subId])
    ∧ (∀ subs, lookupMapping (applyEvents cfg chs evs).chanMappings c = some subs →
        ∀ x ∈ subs, x ∈ subsOf (onSubscribe chs (applyEvents cfg chs evs) conId subId destination) c)
    ∧ (¬(classify (applyEvents cfg chs evs).config destination).1 = DestKind.unknown →
       (classify (applyEvents cfg chs evs).config destination).2 = c →
       (lookupMapping (onUnsubscribe (applyEvents cfg chs evs) conId subId destination).chanMappings c = none ↔
        (lookupMapping (applyEvents cfg chs evs).chanMappings c = none ∨
         lookupMapping (applyEvents cfg chs evs).chanMappings c = some [conId ++ "#" ++ subId])))
    ∧ (lookupMapping (onUnsubscribe (applyEvents cfg chs evs) conId subId destination).chanMappings c = none →
       dispatchResponse (onUnsubscribe (applyEvents cfg chs evs) conId subId destination) c m = []) := by
  have hwf := WFm_applyEvents cfg chs evs
  refine ⟨?_, ?_, ?_, ?_, ?_⟩
  · exact mapping_present_iff_subs_ne_nil _ c hwf
  · intro hk hc hin hlk
    exact onSubscribe_creates chs _ conId subId destination c hk hc hin hlk
  · intro subs hlk x hx
    exact onSubscribe_extends chs _ conId subId destination c subs hlk x hx
  · intro hk hc
    exact onUnsubscribe_removed_iff _ conId subId destination c hwf hk hc
  · intro hnone
    exact dispatchResponse_of_unmapped _ c m hnone

/-- C2: For every bus response message without a private route delivered
on a mapped channel, the endpoint makes exactly one SendMessage call,
targeting the destination TopicPrefix + channelName, regardless of how
many subscribers the mapping has (the subscriber set `subs` is
arbitrary). -/
theorem fabric_broadcast_single_send (fe : FabricEndpoint) (c : String) (p : BusPayload)
    (subs : List String) (h : lookupMapping fe.chanMappings c = some subs)
    (hp : (encodePayload p).2 = none) :
    dispatchResponse fe c (BusMessage.response p) =
      [StompOut.sendMessage (fe.config.TopicPrefix ++ c) (encodePayload p).1] := by
  unfold dispatchResponse
  rw [h]
  cases p <;> simp_all [encodePayload]

/-- C3: For every bus response whose payload is a Response (value or
pointer form) with a BrokerDestination, the endpoint makes exactly one
SendMessageToClient call to that destination's connection, regardless of
the number of subscribers, with the JSON serialization of the whole
Response as the body, and decoding the sent bytes recovers the original
Response (hence its Payload). -/
theorem fabric_private_route_single_send (fe : FabricEndpoint) (c : String) (r : Response)
    (subs : List String) (bd : BrokerDestinationConfig)
    (h : lookupMapping fe.chanMappings c = some subs)
    (hbd : r.BrokerDestination = some bd) :
    dispatchResponse fe c (BusMessage.response (BusPayload.response r)) =
      [StompOut.sendMessageToClient bd.ConnectionId bd.Destination (WireBytes.json (encodeResponse r))]
    ∧ dispatchResponse fe c (BusMessage.response (BusPayload.responsePtr r)) =
      [StompOut.sendMessageToClient bd.ConnectionId bd.Destination (WireBytes.json (encodeResponse r))]
    ∧ decodeResponseWire (WireBytes.json (encodeResponse r)) = some r := by
  refine ⟨?_, ?_, ?_⟩
  · unfold dispatchResponse
    rw [h]
    simp [encodePayload, hbd]
  · unfold dispatchResponse
    rw [h]
    simp [encodePayload, hbd]
  · simp [decodeResponseWire, decodeJsonWire, decodeResponse_encodeResponse]

/-- C5: For every bus message delivered on a mapped channel, the wire
bytes are determined by the payload form: a string payload is sent as its
raw UTF-8 bytes, a byte-sequence payload is transmitted unchanged, any
other value is JSON-serialized so that decoding the sent bytes yields the
original value (including a Response without a BrokerDestination, which
is broadcast), and a bus error message is sent as its plain error text on
the topic destination. -/
theorem fabric_wire_encoding (fe : FabricEndpoint) (c : String) (subs : List String)
    (s e : String) (b : List Nat) (v : Json) (r : Response)
    (h : lookupMapping fe.chanMappings c = some subs) :
    dispatchResponse fe c (BusMessage.response (BusPayload.str s)) =
      [StompOut.sendMessage (fe.config.TopicPrefix ++ c) (WireBytes.utf8 s)]
    ∧ dispatchResponse fe c (BusMessage.response (BusPayload.bytes b)) =
      [StompOut.sendMessage (fe.config.TopicPrefix ++ c) (WireBytes.raw b)]
    ∧ (dispatchResponse fe c (BusMessage.response (BusPayload.value v)) =
        [StompOut.sendMessage (fe.config.TopicPrefix ++ c) (WireBytes.json v)]
      ∧ decodeJsonWire (WireBytes.json v) = some v)
    ∧ (r.BrokerDestination = none →
        dispatchResponse fe c (BusMessage.response (BusPayload.response r)) =
          [StompOut.sendMessage (fe.config.TopicPrefix ++ c) (WireBytes.json (encodeResponse r))]
        ∧ decodeResponseWire (WireBytes.json (encodeResponse r)) = some r)
    ∧ dispatchResponse fe c (BusMessage.error e) =
      [StompOut.sendMessage (fe.config.TopicPrefix ++ c) (WireBytes.utf8 e)] := by
  refine ⟨?_, ?_, ?_, ?_, ?_⟩
  · unfold dispatchResponse
    rw [h]
    simp [encodePayload]
  · unfold dispatchResponse
    rw [h]
    simp [encodePayload]
  · refine ⟨?_, ?_⟩
    · unfold dispatchResponse
      rw [h]
      simp [encodePayload]
    · simp [decodeJsonWire]
  · intro hbd
    refine ⟨?_, ?_⟩
    · unfold dispatchResponse
      rw [h]
      simp [encodePayload, hbd]
    · simp [decodeResponseWire, decodeJsonWire, decodeResponse_encodeResponse]
  · unfold dispatchResponse
    rw [h]

/-- C6: For every subscribe callback whose channel does not exist on the
bus, or whose destination does not classify to a Topic or UserQueue
prefix, the subscription registry is left unchanged and no error is
surfaced; a subsequent bus response on that (still unmapped) channel
produces no STOMP send. -/
theorem fabric_subscribe_invalid_ignored (chs : List String) (fe : FabricEndpoint)
    (conId subId destination c : String) (m : BusMessage)
    (hc : (classify fe.config destination).2 = c)
    (hfail : (¬(classify fe.config destination).1 = DestKind.topic ∧
              ¬(classify fe.config destination).1 = DestKind.userQueue) ∨ c ∉ chs) :
    onSubscribe chs fe conId subId destination = fe
    ∧ (lookupMapping fe.chanMappings c = none →
        dispatchResponse (onSubscribe chs fe conId subId destination) c m = []) := by
  have hid : onSubscribe chs fe conId subId destination = fe := by
    unfold onSubscribe
    rcases hfail with ⟨h1, h2⟩ | hnotin
    · rw [if_neg]
      rintro (hh | hh)
      · exact h1 hh
      · exact h2 hh
    · split
      · rw [if_neg]
        rw [hc]
        exact hnotin
      · rfl
  refine ⟨hid, ?_⟩
  intro hnone
  rw [hid]
  exact dispatchResponse_of_unmapped fe c m hnone

/-- C7: For every unsubscribe callback whose destination does not
classify to a configured prefix, or whose composite id "conId#subId" is
not present in the channel's mapping, the registry is left unchanged; in
particular, repeating an unsubscribe after the first successful call is a
no-op. -/
theorem fabric_unsubscribe_idempotent (cfg : EndpointConfig) (chs : List String)
    (evs : List EndpointEvent) (conId subId destination c : String) :
    ((classify (applyEvents cfg chs evs).config destination).1 = DestKind.unknown →
      onUnsubscribe (applyEvents cfg chs evs) conId subId destination = applyEvents cfg chs evs)
    ∧ ((classify (applyEvents cfg chs evs).config destination).2 = c →
       lookupMapping (applyEvents cfg chs evs).chanMappings c = none →
       onUnsubscribe (applyEvents cfg chs evs) conId subId destination = applyEvents cfg chs evs)
    ∧ (∀ subs, (classify (applyEvents cfg chs evs).config destination).2 = c →
       lookupMapping (applyEvents cfg chs evs).chanMappings c = some subs →
       (conId ++ "#" ++ subId) ∉ subs →
       onUnsubscribe (applyEvents cfg chs evs) conId subId destination = applyEvents cfg chs evs)
    ∧ onUnsubscribe (onUnsubscribe (applyEvents cfg chs evs) conId subId destination) conId subId destination
        = onUnsubscribe (applyEvents cfg chs evs) conId subId destination := by
  have hwf := WFm_applyEvents cfg chs evs
  refine ⟨?_, ?_, ?_, ?_⟩
  · intro hk
    exact onUnsubscribe_noop_unknown _ conId subId destination hk
  · intro hc hlk
    apply onUnsubscribe_noop_none
    rw [hc]
    exact hlk
  · intro subs hc hlk hm
    apply onUnsubscribe_noop_not_mem _ conId subId destination subs _ hm
    rw [hc]
    exact hlk
  · exact onUnsubscribe_idem _ conId subId destination hwf

/-- C8: For every application-request callback whose destination does not
classify to the AppRequest or AppRequestQueue prefixes, or whose channel
does not exist on the bus, or whose body fails to parse as a Request
envelope, the request is silently dropped: nothing is published onto the
bus channel, so a listener on the channel receives nothing. -/
theorem fabric_app_request_dropped (fe : FabricEndpoint) (chs : List String)
    (destination : String) (body : WireBytes) (conId : String) :
    (¬(classify fe.config destination).1 = DestKind.appRequest →
     ¬(classify fe.config destination).1 = DestKind.appRequestQueue →
     onAppRequest fe chs destination body conId = [])
    ∧ ((classify fe.config destination).2 ∉ chs →
        onAppRequest fe chs destination body conId = [])
    ∧ (parseRequest body = none → onAppRequest fe chs destination body conId = []) := by
  refine ⟨?_, ?_, ?_⟩
  · intro h1 h2
    unfold onAppRequest
    rw [if_neg]
    rintro (hh | hh)
    · exact h1 hh
    · exact h2 hh
  · intro hnotin
    unfold onAppRequest
    split
    · simp [hnotin]
    · rfl
  · intro hparse
    unfold onAppRequest
    split
    · split
      · simp only [hparse]
      · rfl
    · rfl

/-- C4: For every application-request callback on an existing channel
with a well-formed Request body: an AppRequestQueue destination publishes
the Request with BrokerDestination set to UserQueuePrefix + channelName
and the connection id — and a destination matching the AppRequestQueue
prefix classifies as AppRequestQueue even though it also matches the
AppRequest prefix (the longer prefix is checked first, the channel name
being the suffix after it); a destination classifying only as AppRequest
publishes the Request with its nil BrokerDestination untouched; the
Request's id, request name and payload are preserved unchanged. -/
theorem fabric_app_request_routing (fe : FabricEndpoint) (chs : List String)
    (destination : String) (body : WireBytes) (conId c : String) (req : Request)
    (hp : parseRequest body = some req) :
    (classify fe.config destination = (DestKind.appRequestQueue, c) → c ∈ chs →
      onAppRequest fe chs destination body conId =
        [(c, { req with BrokerDestination :=
            (some { Destination := (fe.config.UserQueuePrefix ++ c), ConnectionId := conId }) })])
    ∧ (classify fe.config destination = (DestKind.appRequest, c) → c ∈ chs →
        req.BrokerDestination = none →
        onAppRequest fe chs destination body conId = [(c, req)])
    ∧ (matchesPfx fe.config.AppRequestQueuePrefix destination = true →
        chanSuffix fe.config.AppRequestQueuePrefix destination = c → ¬c = "" →
        classify fe.config destination = (DestKind.appRequestQueue, c))
    ∧ (∀ ch r2, (ch, r2) ∈ onAppRequest fe chs destination body conId →
        r2.Id = req.Id ∧ r2.Request = req.Request ∧ r2.Payload = req.Payload) := by
  refine ⟨?_, ?_, ?_, ?_⟩
  · intro hcl hin
    unfold onAppRequest
    rw [hcl]
    simp [hin, hp]
  · intro hcl hin hbd
    unfold onAppRequest
    rw [hcl]
    simp [hin, hp]
  · intro hm hsuf hne
    unfold classify
    rw [if_pos hm, hsuf]
    unfold tagDest
    rw [if_neg hne]
  · intro ch r2 hmem
    unfold onAppRequest at hmem
    by_cases h1 : ((classify fe.config destination).1 = DestKind.appRequest ∨
        (classify fe.config destination).1 = DestKind.appRequestQueue)
    · rw [if_pos h1] at hmem
      by_cases h2 : (classify fe.config destination).2 ∈ chs
      · simp only [if_pos h2, hp] at hmem
        by_cases h3 : (classify fe.config destination).1 = DestKind.appRequestQueue
        · rw [if_pos h3] at hmem
          simp only [List.mem_singleton, Prod.mk.injEq] at hmem
          rw [hmem.2]
          exact ⟨rfl, rfl, rfl⟩
        · rw [if_neg h3] at hmem
          simp only [List.mem_singleton, Prod.mk.injEq] at hmem
          rw [hmem.2]
          exact ⟨rfl, rfl, rfl⟩
      · rw [if_neg h2] at hmem
        simp at hmem
    · rw [if_neg h1] at hmem
      simp at hmem

/-- C9 counterexample: a prefix that already ends in two separators is
stored unchanged by the endpoint constructor, so the stored value does
not carry exactly one trailing path separator. -/
theorem fabric_prefix_normalization_counterexample :
    ¬("/topic//" : String) = ""
    ∧ (newFabricEndpoint { TopicPrefix := "/topic//" }).config.TopicPrefix = "/topic//"
    ∧ ¬exactlyOneTrailingSlash (newFabricEndpoint { TopicPrefix := "/topic//" }).config.TopicPrefix := by
  refine ⟨by decide, by decide, ?_⟩
  intro hone
  have h2 := hone.2
  revert h2
  decide

/-- C9 (amended): each prefix option is stored normalized: an empty
prefix stays empty, a non-empty prefix already ending in the path
separator is stored unchanged, and a non-empty prefix without a trailing
separator gains a single trailing separator. -/
theorem fabric_prefix_normalization (cfg : EndpointConfig) (p : String) :
    (newFabricEndpoint cfg).config.TopicPrefix = normalizePfx cfg.TopicPrefix
    ∧ (newFabricEndpoint cfg).config.AppRequestPrefix = normalizePfx cfg.AppRequestPrefix
    ∧ (newFabricEndpoint cfg).config.AppRequestQueuePrefix = normalizePfx cfg.AppRequestQueuePrefix
    ∧ (newFabricEndpoint cfg).config.UserQueuePrefix = normalizePfx cfg.UserQueuePrefix
    ∧ (p = "" → normalizePfx p = "")
    ∧ (¬p = "" → p.data.reverse.take 1 = ['/'] → normalizePfx p = p)
    ∧ (¬p = "" → ¬p.data.reverse.take 1 = ['/'] → normalizePfx p = p ++ "/") := by
  refine ⟨rfl, rfl, rfl, rfl, ?_, ?_, ?_⟩
  · intro he
    rw [normalizePfx, if_pos he]
  · intro hne hsl
    rw [normalizePfx, if_neg hne, if_pos hsl]
  · intro hne hsl
    rw [normalizePfx, if_neg hne, if_neg hsl]

/-- C10: For every call to the broker connector's Connect with a config
that is nil, or whose ServerAddr, Username, or Password is empty, Connect
returns a nil Connection and a non-nil error; no dial is attempted and
the connector's state (connected flag, stored connection and config) is
unchanged. -/
theorem connect_invalid_config (bc : BrokerConnectorState) (config : Option BrokerConnectorConfig)
    (dialTCP dialWS : BrokerConnectorConfig → Option Nat)
    (h : config = none ∨ ∃ cfg, config = some cfg ∧
          (cfg.ServerAddr = "" ∨ cfg.Username = "" ∨ cfg.Password = "")) :
    (Connect bc config dialTCP dialWS).conn = none
    ∧ (Connect bc config dialTCP dialWS).err.isSome = true
    ∧ (Connect bc config dialTCP dialWS).state = bc
    ∧ (Connect bc config dialTCP dialWS).dialAttempted = false := by
  have hchk : ∃ e, checkConfig config = some e := by
    rcases h with h | ⟨cfg, hcfg, hf⟩
    · subst h
      exact ⟨_, rfl⟩
    · subst hcfg
      by_cases h1 : cfg.ServerAddr = ""
      · exact ⟨"config invalid, config missing server address",
          by simp only [checkConfig]; rw [if_pos h1]⟩
      · by_cases h2 : cfg.Username = ""
        · exact ⟨"config invalid, config missing username",
            by simp only [checkConfig]; rw [if_neg h1, if_pos h2]⟩
        · by_cases h3 : cfg.Password = ""
          · exact ⟨"config invalid, config missing password",
              by simp only [checkConfig]; rw [if_neg h1, if_neg h2, if_pos h3]⟩
          · rcases hf with hf | hf | hf
            · exact absurd hf h1
            · exact absurd hf h2
            · exact absurd hf h3
  obtain ⟨e, he⟩ := hchk
  unfold Connect
  rw [he]
  exact ⟨rfl, rfl, rfl, rfl⟩

/-! ## Witnesses: concrete instances discharging the hypotheses -/

/-- Witness for C2 at the test's scenario: a mapped channel with two
subscribers, a string response, exactly one broadcast send. -/
theorem fabric_broadcast_single_send_witness :
    dispatchResponse
        { config := { TopicPrefix := "/topic/" },
          chanMappings := [("test-service", ["con1#sub1", "con1#sub2"])] }
        "test-service" (BusMessage.response (BusPayload.str "test-message"))
      = [StompOut.sendMessage ("/topic/" ++ "test-service") (WireBytes.utf8 "test-message")] :=
  fabric_broadcast_single_send
    { config := { TopicPrefix := "/topic/" },
      chanMappings := [("test-service", ["con1#sub1", "con1#sub2"])] }
    "test-service" (BusPayload.str "test-message") ["con1#sub1", "con1#sub2"] rfl rfl

/-- Witness for C3 at the test's scenario: a Response carrying a private
destination is sent once to that connection and decodes back. -/
theorem fabric_private_route_single_send_witness :
    dispatchResponse
        { config := { TopicPrefix := "/topic/" },
          chanMappings := [("test-service", ["con1#sub1", "con1#sub2", "con1#sub3"])] }
        "test-service"
        (BusMessage.response (BusPayload.response
          { Id := none, Payload := Json.str "test-private-message", Error := false,
            BrokerDestination := some { Destination := "/user/queue/test-service", ConnectionId := "con1" } }))
      = [StompOut.sendMessageToClient "con1" "/user/queue/test-service"
          (WireBytes.json (encodeResponse
            { Id := none, Payload := Json.str "test-private-message", Error := false,
              BrokerDestination := some { Destination := "/user/queue/test-service", ConnectionId := "con1" } }))]
    ∧ decodeResponseWire
        (WireBytes.json (encodeResponse
          { Id := none, Payload := Json.str "test-private-message", Error := false,
            BrokerDestination := some { Destination := "/user/queue/test-service", ConnectionId := "con1" } }))
      = some { Id := none, Payload := Json.str "test-private-message", Error := false,
               BrokerDestination := some { Destination := "/user/queue/test-service", ConnectionId := "con1" } } := by
  have h := fabric_private_route_single_send
    { config := { TopicPrefix := "/topic/" },
      chanMappings := [("test-service", ["con1#sub1", "con1#sub2", "con1#sub3"])] }
    "test-service"
    { Id := none, Payload := Json.str "test-private-message", Error := false,
      BrokerDestination := some { Destination := "/user/queue/test-service", ConnectionId := "con1" } }
    ["con1#sub1", "con1#sub2", "con1#sub3"]
    { Destination := "/user/queue/test-service", ConnectionId := "con1" } rfl rfl
  exact ⟨h.1, h.2.2⟩

/-- Witness for C4 at the test's scenario: a queue-prefixed request gains
the user-queue BrokerDestination, a plain request is published as-is. -/
theorem fabric_app_request_routing_witness :
    onAppRequest
        { config := { TopicPrefix := "/topic/", AppRequestPrefix := "/pub/",
                      AppRequestQueuePrefix := "/pub/queue/", UserQueuePrefix := "/user/queue/" },
          chanMappings := [] }
        ["request-channel"] "/pub/queue/request-channel"
        (WireBytes.json (encodeRequest
          { Id := some "id2", Request := "test-request2", Payload := Json.str "test-rq2",
            BrokerDestination := none })) "con2"
      = [("request-channel",
          { Id := some "id2", Request := "test-request2", Payload := Json.str "test-rq2",
            BrokerDestination :=
              (some { Destination := ("/user/queue/" ++ "request-channel"), ConnectionId := "con2" }) })]
    ∧ onAppRequest
        { config := { TopicPrefix := "/topic/", AppRequestPrefix := "/pub/",
                      AppRequestQueuePrefix := "/pub/queue/", UserQueuePrefix := "/user/queue/" },
          chanMappings := [] }
        ["request-channel"] "/pub/request-channel"
        (WireBytes.json (encodeRequest
          { Id := some "id1", Request := "test-request", Payload := Json.str "test-rq",
            BrokerDestination := none })) "con1"
      = [("request-channel",
          { Id := some "id1", Request := "test-request", Payload := Json.str "test-rq",
            BrokerDestination := none })] := by
  constructor
  · exact (fabric_app_request_routing
      { config := { TopicPrefix := "/topic/", AppRequestPrefix := "/pub/",
                    AppRequestQueuePrefix := "/pub/queue/", UserQueuePrefix := "/user/queue/" },
        chanMappings := [] }
      ["request-channel"] "/pub/queue/request-channel"
      (WireBytes.json (encodeRequest
        { Id := some "id2", Request := "test-request2", Payload := Json.str "test-rq2",
          BrokerDestination := none })) "con2" "request-channel"
      { Id := some "id2", Request := "test-request2", Payload := Json.str "test-rq2",
        BrokerDestination := none } rfl).1 rfl (by decide)
  · exact (fabric_app_request_routing
      { config := { TopicPrefix := "/topic/", AppRequestPrefix := "/pub/",
                    AppRequestQueuePrefix := "/pub/queue/", UserQueuePrefix := "/user/queue/" },
        chanMappings := [] }
      ["request-channel"] "/pub/request-channel"
      (WireBytes.json (encodeRequest
        { Id := some "id1", Request := "test-request", Payload := Json.str "test-rq",
          BrokerDestination := none })) "con1" "request-channel"
      { Id := some "id1", Request := "test-request", Payload := Json.str "test-rq",
        BrokerDestination := none } rfl).2.1 rfl (by decide) rfl

/-- Witness for C5 at the test's payloads: a string, the bytes 1,2,3, a
JSON value, a Response without a BrokerDestination, and an error text. -/
theorem fabric_wire_encoding_witness :
    dispatchResponse
        { config := { TopicPrefix := "/topic/" },
          chanMappings := [("test-service", ["con1#sub1"])] }
        "test-service" (BusMessage.response (BusPayload.str "test-message"))
      = [StompOut.sendMessage ("/topic/" ++ "test-service") (WireBytes.utf8 "test-message")]
    ∧ dispatchResponse
        { config := { TopicPrefix := "/topic/" },
          chanMappings := [("test-service", ["con1#sub1"])] }
        "test-service" (BusMessage.response (BusPayload.bytes [1, 2, 3]))
      = [StompOut.sendMessage ("/topic/" ++ "test-service") (WireBytes.raw [1, 2, 3])]
    ∧ (dispatchResponse
        { config := { TopicPrefix := "/topic/" },
          chanMappings := [("test-service", ["con1#sub1"])] }
        "test-service" (BusMessage.response (BusPayload.value (Json.str "test")))
      = [StompOut.sendMessage ("/topic/" ++ "test-service") (WireBytes.json (Json.str "test"))]
      ∧ decodeJsonWire (WireBytes.json (Json.str "test")) = some (Json.str "test"))
    ∧ (dispatchResponse
        { config := { TopicPrefix := "/topic/" },
          chanMappings := [("test-service", ["con1#sub1"])] }
        "test-service" (BusMessage.response (BusPayload.response
          { Id := none, Payload := Json.str "test", Error := false, BrokerDestination := none }))
      = [StompOut.sendMessage ("/topic/" ++ "test-service")
          (WireBytes.json (encodeResponse
            { Id := none, Payload := Json.str "test", Error := false, BrokerDestination := none }))]
      ∧ decodeResponseWire
          (WireBytes.json (encodeResponse
            { Id := none, Payload := Json.str "test", Error := false, BrokerDestination := none }))
        = some { Id := none, Payload := Json.str "test", Error := false, BrokerDestination := none })
    ∧ dispatchResponse
        { config := { TopicPrefix := "/topic/" },
          chanMappings := [("test-service", ["con1#sub1"])] }
        "test-service" (BusMessage.error "test-error")
      = [StompOut.sendMessage ("/topic/" ++ "test-service") (WireBytes.utf8 "test-error")] := by
  have h := fabric_wire_encoding
    { config := { TopicPrefix := "/topic/" },
      chanMappings := [("test-service", ["con1#sub1"])] }
    "test-service" ["con1#sub1"] "test-message" "test-error" [1, 2, 3] (Json.str "test")
    { Id := none, Payload := Json.str "test", Error := false, BrokerDestination := none } rfl
  exact ⟨h.1, h.2.1, h.2.2.1, h.2.2.2.1 rfl, h.2.2.2.2⟩

/-- Witness for C6 at the test's scenario: subscribing before the channel
exists leaves the registry unchanged and a response on the channel sends
nothing. -/
theorem fabric_subscribe_invalid_ignored_witness :
    onSubscribe [] (newFabricEndpoint { TopicPrefix := "/topic", UserQueuePrefix := "/user/queue" })
        "con1" "sub1" "/topic/test-service"
      = newFabricEndpoint { TopicPrefix := "/topic", UserQueuePrefix := "/user/queue" }
    ∧ dispatchResponse
        (onSubscribe [] (newFabricEndpoint { TopicPrefix := "/topic", UserQueuePrefix := "/user/queue" })
          "con1" "sub1" "/topic/test-service")
        "test-service" (BusMessage.response (BusPayload.str "test-message")) = [] := by
  have h := fabric_subscribe_invalid_ignored []
    (newFabricEndpoint { TopicPrefix := "/topic", UserQueuePrefix := "/user/queue" })
    "con1" "sub1" "/topic/test-service" "test-service"
    (BusMessage.response (BusPayload.str "test-message")) rfl (Or.inr (by decide))
  exact ⟨h.1, h.2 rfl⟩

/-- Witness for C10: connecting with a config missing the username fails
with an error, attempts no dial, and leaves the connector untouched. -/
theorem connect_invalid_config_witness :
    (Connect { c := none, config := none, connected := false }
        (some { Username := "", Password := "pw", ServerAddr := "localhost:8090" })
        (fun _ => some 1) (fun _ => some 2)).conn = none
    ∧ (Connect { c := none, config := none, connected := false }
        (some { Username := "", Password := "pw", ServerAddr := "localhost:8090" })
        (fun _ => some 1) (fun _ => some 2)).err.isSome = true
    ∧ (Connect { c := none, config := none, connected := false }
        (some { Username := "", Password := "pw", ServerAddr := "localhost:8090" })
        (fun _ => some 1) (fun _ => some 2)).state
      = { c := none, config := none, connected := false }
    ∧ (Connect { c := none, config := none, connected := false }
        (some { Username := "", Password := "pw", ServerAddr := "localhost:8090" })
        (fun _ => some 1) (fun _ => some 2)).dialAttempted = false :=
  connect_invalid_config { c := none, config := none, connected := false }
    (some { Username := "", Password := "pw", ServerAddr := "localhost:8090" })
    (fun _ => some 1) (fun _ => some 2)
    (Or.inr ⟨{ Username := "", Password := "pw", ServerAddr := "localhost:8090" }, rfl,
      Or.inr (Or.inl rfl)⟩)

end Transport
